import Mathlib

/-!
Verification of the two Icinga2-style health-check probes of this repository:
`check_mongolu_monitor.py` (MongoDB replica probe) and `check_redis_monitor.py`
(Redis memory/latency probe).

The Python code is shallowly embedded. Python `float` values in this program
always carry exact short decimal quantities (thresholds such as `0.95` and
`20.0`, parsed decimal strings such as `"3.59"` or `"0.07"`), so they are
modelled as exact fractions (`PyQ`, an integer numerator over a positive
natural denominator) whose arithmetic is plain integer arithmetic; `toQ`
interprets a `PyQ` as the rational number it denotes. Python exceptions
become `Except`/sum types; the external collaborators (the MongoDB
connection, the Redis `INFO` query, the `keydb-cli --latency` subprocess)
become explicit parameters holding the telemetry they would return.
-/

/-- Exact fraction: the value of a Python float in this program. The
denominator is kept positive; no normalisation is performed, so all
arithmetic is gcd-free integer arithmetic. -/
structure PyQ where
  num : ℤ
  den : ℕ
  den_pos : 0 < den

instance : DecidableEq PyQ := fun a b =>
  decidable_of_iff (a.num = b.num ∧ a.den = b.den) (by cases a; cases b; simp)

/-- Build a `PyQ`, defaulting to denominator 1 if a zero denominator is
supplied (never happens in this development). -/
def mkPyQ (n : ℤ) (d : ℕ) : PyQ :=
  if h : 0 < d then ⟨n, d, h⟩ else ⟨n, 1, one_pos⟩

/-- Embedding of a Python integer into a float value. -/
def PyQ.ofNat (n : ℕ) : PyQ := ⟨n, 1, one_pos⟩

/-- Negation of an exact fraction. -/
def PyQ.neg (a : PyQ) : PyQ := ⟨-a.num, a.den, a.den_pos⟩

/-- Product of two exact fractions. -/
def PyQ.mul (a b : PyQ) : PyQ :=
  ⟨a.num * b.num, a.den * b.den, Nat.mul_pos a.den_pos b.den_pos⟩

/-- Strict comparison `a < b` of exact fractions by cross-multiplication. -/
def PyQ.blt (a b : PyQ) : Bool :=
  a.num * (b.den : ℤ) < b.num * (a.den : ℤ)

/-- The rational number denoted by an exact fraction. -/
def toQ (a : PyQ) : ℚ := (a.num : ℚ) / (a.den : ℚ)

theorem PyQ.blt_iff (a b : PyQ) : PyQ.blt a b = true ↔ toQ a < toQ b := by
  rw [PyQ.blt, toQ, toQ, decide_eq_true_eq,
    div_lt_div_iff₀ (by exact_mod_cast a.den_pos) (by exact_mod_cast b.den_pos)]
  exact_mod_cast Iff.rfl

theorem toQ_mul (a b : PyQ) : toQ (a.mul b) = toQ a * toQ b := by
  rw [toQ, toQ, toQ, PyQ.mul]
  push_cast
  rw [div_mul_div_comm]

theorem toQ_ofNat (n : ℕ) : toQ (PyQ.ofNat n) = (n : ℚ) := by
  rw [toQ, PyQ.ofNat]
  simp

theorem toQ_eq_zero_iff (a : PyQ) : toQ a = 0 ↔ a.num = 0 := by
  rw [toQ, div_eq_zero_iff]
  have hd : ((a.den : ℚ)) ≠ 0 := by exact_mod_cast a.den_pos.ne'
  simp [hd]

instance {ε α : Type} [DecidableEq ε] [DecidableEq α] : DecidableEq (Except ε α)
  | .ok a, .ok b => decidable_of_iff (a = b) (by simp)
  | .ok _, .error _ => isFalse (by simp)
  | .error _, .ok _ => isFalse (by simp)
  | .error a, .error b => decidable_of_iff (a = b) (by simp)

/-- Splitting of a character list on a separator, matching Python's
`str.split(sep)` for a one-character separator: consecutive separators and an
empty input produce empty fields (`"".split(' ') == ['']`). -/
def splitChars (sep : Char) : List Char → List (List Char)
  | [] => [[]]
  | c :: cs =>
    if c = sep then [] :: splitChars sep cs
    else
      match splitChars sep cs with
      | [] => [[c]]
      | h :: t => (c :: h) :: t

/-- Numeric value of a list of decimal digit characters, most significant
first. -/
def digitsVal (l : List Char) : ℕ :=
  l.foldl (fun n c => n * 10 + (c.toNat - 48)) 0

/-- All characters are decimal digits. -/
def allDigits (l : List Char) : Bool :=
  l.all Char.isDigit

/-- Leading and trailing whitespace removed, as Python's `float` does before
parsing. -/
def stripWs (l : List Char) : List Char :=
  ((l.dropWhile Char.isWhitespace).reverse.dropWhile Char.isWhitespace).reverse

/-- Unsigned decimal numeral body: digits with at most one point and at least
one digit somewhere (Python's `float` accepts `"1."` and `".5"` but rejects
`"."` and `""`). -/
def parseDecBody (l : List Char) : Option PyQ :=
  match splitChars '.' l with
  | [a] => if a.isEmpty || !allDigits a then none else some (mkPyQ (digitsVal a) 1)
  | [a, b] =>
    if (a.isEmpty && b.isEmpty) || !allDigits a || !allDigits b then none
    else some (mkPyQ (digitsVal a * 10 ^ b.length + digitsVal b) (10 ^ b.length))
  | _ => none

/-- Python's `float(s)` on the plain decimal numerals this program feeds it
(optional sign, digits, optional single point, optional surrounding
whitespace); `none` models the `ValueError` that `float` raises otherwise.
Exponent, `inf` and `nan` forms never occur in this program's inputs and are
not modelled. -/
def parsePyFloat (s : String) : Option PyQ :=
  match stripWs s.toList with
  | [] => none
  | '-' :: rest => (parseDecBody rest).map PyQ.neg
  | '+' :: rest => parseDecBody rest
  | l => parseDecBody l

/-- Round `m / den` (with `den > 0`) to the nearest natural number, ties to
the even one, as Python's float formatting does at exact ties. -/
def roundHalfEvenNat (m den : ℕ) : ℕ :=
  let f := m / den
  let r2 := 2 * (m % den)
  if r2 < den then f
  else if den < r2 then f + 1
  else if f % 2 = 0 then f else f + 1

/-- Pad a numeral string with leading zeros up to width `k`. -/
def padZeros (k : ℕ) (s : String) : String :=
  String.mk (List.replicate (k - s.length) '0') ++ s

/-- Python's `f'{q:.2f}'` on an exact decimal value: two digits after the
point, rounding ties to even. -/
def format2f (q : PyQ) : String :=
  let sgn := if q.num < 0 then "-" else ""
  let n : ℕ := roundHalfEvenNat (q.num.natAbs * 100) q.den
  sgn ++ toString (n / 100) ++ "." ++ padZeros 2 (toString (n % 100))

/-- Smallest number of decimal places (up to 20) that writes `q` exactly. -/
def decScale (q : PyQ) : ℕ :=
  ((List.range 21).filter (fun k => (q.num.natAbs * 10 ^ k) % q.den == 0)).headI

/-- Python's `repr`/f-string rendering of a float holding an exact short
decimal value: shortest decimal expansion, always with at least one digit
after the point (`repr(20.0) == "20.0"`, `repr(0.07) == "0.07"`). -/
def pyFloatRepr (q : PyQ) : String :=
  let sgn := if q.num < 0 then "-" else ""
  let k : ℕ := max 1 (decScale q)
  let n : ℕ := q.num.natAbs * 10 ^ k / q.den
  sgn ++ toString (n / 10 ^ k) ++ "." ++ padZeros k (toString (n % 10 ^ k))

/-- Python's `s[0:len(s)-1]`: the string without its final character. -/
def pyDropLast (s : String) : String :=
  String.mk s.toList.dropLast

/-- Python's `s[-1:len(s)]`: the final character as a string, empty when `s`
is empty. -/
def pyLastChar (s : String) : String :=
  match s.toList.getLast? with
  | none => ""
  | some c => String.singleton c

/-- Containment of a string at the start of another, character-wise. -/
def strStartsWith (p s : String) : Bool :=
  p.toList.isPrefixOf s.toList

/-! ## Embedding of `check_mongolu_monitor.py` -/

/-- Constant `PRIMARY_INSTANCE = 1` of the MongoDB probe. -/
def PRIMARY_INSTANCE : ℤ := 1

/-- Constant `SECONDARY_INSTANCE = 2` of the MongoDB probe. -/
def SECONDARY_INSTANCE : ℤ := 2

/-- Errors the MongoDB collaborator can raise while `report_instance_status`
connects and queries `replSetGetStatus`: `ServerSelectionTimeoutError` and
`OperationFailure`, each carrying its message text. -/
inductive MongoConnErr where
  | timeout (msg : String)
  | opFailure (msg : String)
deriving DecidableEq

/-- Exceptions that can escape `report_instance_status`: the two collaborator
errors plus the probe's own `ReplicaUnhealthy`. -/
inductive MongoErr where
  | timeout (msg : String)
  | opFailure (msg : String)
  | replicaUnhealthy (msg : String)
deriving DecidableEq

/-- Embedding of `report_instance_status`. The collaborator calls
(`MongoClient` plus `get_instance_status`) are summarised by `status_result`:
either the integer `myState` they returned, or the error they raised, which
propagates. On a state other than Primary/Secondary the function raises
`ReplicaUnhealthy` carrying the critical message. -/
def report_instance_status (status_result : Except MongoConnErr ℤ) :
    Except MongoErr String :=
  match status_result with
  | .error (.timeout m) => .error (.timeout m)
  | .error (.opFailure m) => .error (.opFailure m)
  | .ok instance_status =>
    if instance_status = PRIMARY_INSTANCE then
      .ok ("Ok - Replica Primary" ++ "|replica_health=1;;0;;")
    else if instance_status = SECONDARY_INSTANCE then
      .ok ("Ok - Replica Secondary" ++ "|replica_health=1;;0;;")
    else
      .error (.replicaUnhealthy ("Critical - Replica NOK!" ++ "|replica_health=1;;0;;"))

/-- Embedding of the MongoDB probe's `main`: the printed line and the exit
code. All three exception kinds are caught and mapped to printing the
exception's message (`print(*ex.args)`) and exiting `STATUS['CRITICAL'] = 2`;
success prints the message and exits `STATUS['OK'] = 0`. -/
def mongoMain (status_result : Except MongoConnErr ℤ) : String × ℕ :=
  match report_instance_status status_result with
  | .ok message => (message, 0)
  | .error (.timeout m) => (m, 2)
  | .error (.opFailure m) => (m, 2)
  | .error (.replicaUnhealthy m) => (m, 2)

/-! ## Embedding of `check_redis_monitor.py` -/

/-- The fields of the Redis `INFO` dictionary that the probe reads:
`used_memory` and `maxmemory` as byte counts, and their human-readable
abbreviated forms as the server formats them (for example `"6.02M"`). -/
structure ClientInformation where
  used_memory : ℕ
  maxmemory : ℕ
  used_memory_human : String
  maxmemory_human : String
deriving DecidableEq

namespace ARGS

/-- Default threshold `ARGS['MAX_PERCENTUAL_MEMORY_USAGE'] = 0.95`. -/
def MAX_PERCENTUAL_MEMORY_USAGE : PyQ := mkPyQ 95 100

/-- Default threshold `ARGS['MAX_LATENCY_MS'] = 20.0`. -/
def MAX_LATENCY_MS : PyQ := mkPyQ 20 1

end ARGS

/-- Exceptions that can arise inside `report_stats`: the `ValueError` from
`float(...)`, the `IndexError` from `results[2]`, and `redis.RedisError`
(as raised by the client library or by `report_stats` itself) carrying its
message text. -/
inductive PyErr where
  | valueError
  | indexError
  | redisError (msg : String)
deriving DecidableEq

/-- Threshold resolution as written inline in `report_stats`
(`if not max_memory_usage: ...` and `if not max_latency: ...`): a missing
(`None`) or zero-valued (falsy) caller value is replaced by the default,
any other value is kept unchanged. -/
def resolve (override : Option PyQ) (default : PyQ) : PyQ :=
  match override with
  | none => default
  | some v => if v.num = 0 then default else v

/-- Embedding of `run_keydb_latency_check`: the decoded stdout of the
`keydb-cli --latency` subprocess, split on single spaces
(`output.decode('utf-8').split(' ')`). The raw text is a parameter. -/
def run_keydb_latency_check (raw_output : String) : List String :=
  (splitChars ' ' raw_output.toList).map String.mk

/-- Embedding of `format_message`: the one-line summary plus pipe-delimited
performance data. The two f-string conditionals insert the literal `high`
exactly when the corresponding sub-check is unhealthy. -/
def format_message (memory_healthy : Bool) (max_memory_allowed_human : String)
    (latency_healthy : Bool) (max_latency : PyQ)
    (client_information : ClientInformation) (latency : PyQ) : String :=
  let used_memory_human := client_information.used_memory_human ++ "B"
  let maxmemory_human := client_information.maxmemory_human ++ "B"
  let base_massage :=
    (if !memory_healthy then "high" else "") ++ " memory usage: " ++
      used_memory_human ++ " used of " ++ maxmemory_human ++ " / " ++
      (if !latency_healthy then "high" else "") ++ " average latency: " ++
      pyFloatRepr latency ++ " ms"
  base_massage ++ "|used_memory=" ++ used_memory_human ++ ";;" ++
    max_memory_allowed_human ++ ";; average_latency=" ++ pyFloatRepr latency ++
    ";;" ++ pyFloatRepr max_latency ++ ";;"

/-- Embedding of `get_memory_threshold_by_percentage`:
`max_memory_usage * client_information['maxmemory']`. -/
def get_memory_threshold_by_percentage (max_memory_usage : PyQ)
    (client_information : ClientInformation) : PyQ :=
  max_memory_usage.mul (PyQ.ofNat client_information.maxmemory)

/-- Embedding of `get_human_memory_threshold_by_percentage`: strip the final
character of `maxmemory_human`, parse the remaining prefix with `float`
(whose `ValueError` propagates as `.error .valueError`), multiply by the
fraction, format with `f'{...:.2f}'`, reattach the unit character and a
literal `B`. -/
def get_human_memory_threshold_by_percentage (max_memory_usage : PyQ)
    (client_information : ClientInformation) : Except PyErr String :=
  let maxmemory_memory_human := client_information.maxmemory_human
  match parsePyFloat (pyDropLast maxmemory_memory_human) with
  | none => .error .valueError
  | some maxmemory_memory_human_value =>
    .ok (format2f (maxmemory_memory_human_value.mul max_memory_usage) ++
      pyLastChar maxmemory_memory_human ++ "B")

/-- Embedding of `check_memory_usage`: healthy unless
`used_memory > max_memory_allowed`; also returns the human-readable allowed
limit, whose `ValueError` propagates. -/
def check_memory_usage (client_information : ClientInformation)
    (max_memory_usage : PyQ) : Except PyErr (Bool × String) :=
  let max_memory_allowed :=
    get_memory_threshold_by_percentage max_memory_usage client_information
  match get_human_memory_threshold_by_percentage max_memory_usage client_information with
  | .error e => .error e
  | .ok max_memory_allowed_human =>
    .ok (if max_memory_allowed.blt (PyQ.ofNat client_information.used_memory)
         then false else true,
         max_memory_allowed_human)

/-- Embedding of `check_latency`: take the third space-delimited token of
the latency tool's output (`results[2]`, whose `IndexError` propagates when
there are fewer than three tokens), parse it with `float` (whose
`ValueError` propagates), and compare with the threshold. -/
def check_latency (max_latency : PyQ) (raw_output : String) :
    Except PyErr (Bool × PyQ) :=
  let results := run_keydb_latency_check raw_output
  match results[2]? with
  | none => .error .indexError
  | some t =>
    match parsePyFloat t with
    | none => .error .valueError
    | some average_latency =>
      if max_latency.blt average_latency then .ok (false, average_latency)
      else .ok (true, average_latency)

/-- Embedding of `report_stats`. The Redis `INFO` query is summarised by
`info_result` (the dictionary, or the message of the `redis.RedisError` the
client library raised); `latency_output` is the latency subprocess's stdout.
Thresholds are resolved against the defaults, both checks run, the message
is always formatted from the measured values, and an unhealthy verdict
raises `redis.RedisError(message)`. -/
def report_stats (max_latency max_memory_usage : Option PyQ)
    (info_result : Except String ClientInformation) (latency_output : String) :
    Except PyErr String :=
  match info_result with
  | .error m => .error (.redisError m)
  | .ok client_information =>
    match check_memory_usage client_information
        (resolve max_memory_usage ARGS.MAX_PERCENTUAL_MEMORY_USAGE) with
    | .error e => .error e
    | .ok (memory_healthy, max_memory_allowed_human) =>
      match check_latency (resolve max_latency ARGS.MAX_LATENCY_MS) latency_output with
      | .error e => .error e
      | .ok (latency_healthy, latency) =>
        let message := format_message memory_healthy max_memory_allowed_human
          latency_healthy (resolve max_latency ARGS.MAX_LATENCY_MS)
          client_information latency
        if !memory_healthy || !latency_healthy then .error (.redisError message)
        else .ok message

/-- Terminal outcome of one run of the Redis probe's `main`: either the
process printed one line and called `sys.exit(code)`, or an exception type
that `main` does not catch escaped (Python then terminates with a traceback,
printing no plugin message and exiting with the interpreter's error status,
not the plugin protocol's CRITICAL code). -/
inductive RunOutcome where
  | exited (out : String) (code : ℕ)
  | uncaught (err : PyErr)
deriving DecidableEq

/-- Embedding of the Redis probe's `main`: only `redis.RedisError` is caught
(printing its message and exiting `STATUS['CRITICAL'] = 2`); success prints
the message and exits `STATUS['OK'] = 0`; every other exception escapes. -/
def redisMain (max_latency max_memory_usage : Option PyQ)
    (info_result : Except String ClientInformation) (latency_output : String) :
    RunOutcome :=
  match report_stats max_latency max_memory_usage info_result latency_output with
  | .ok message => .exited message 0
  | .error (.redisError m) => .exited m 2
  | .error e => .uncaught e

/-! ## Supporting lemmas -/

theorem strAppend_assoc (a b c : String) : a ++ b ++ c = a ++ (b ++ c) := by
  cases a with
  | mk x =>
    cases b with
    | mk y =>
      cases c with
      | mk z => exact congrArg String.mk (List.append_assoc x y z)

theorem pyDropLast_append_singleton (p : String) (c : Char) :
    pyDropLast (p ++ String.singleton c) = p := by
  cases p with
  | mk l =>
    show String.mk ((l ++ [c]).dropLast) = String.mk l
    rw [List.dropLast_concat]

theorem pyLastChar_append_singleton (p : String) (c : Char) :
    pyLastChar (p ++ String.singleton c) = String.singleton c := by
  cases p with
  | mk l =>
    show (match (l ++ [c]).getLast? with
      | none => "" | some c => String.singleton c) = String.singleton c
    rw [List.getLast?_concat]

/-! ## Claim theorems -/

/-- C1: for every successfully read replication state integer,
`report_instance_status` returns the healthy message with role label
`Primary` when the state is 1 and `Secondary` when it is 2, and for every
other integer raises `ReplicaUnhealthy` — raising is exactly the
not-Primary-and-not-Secondary branch, the only one that signals failure for
this probe. -/
theorem C1_replication_evaluator (s : ℤ) :
    report_instance_status (.ok s) =
      (if s = 1 then .ok "Ok - Replica Primary|replica_health=1;;0;;"
       else if s = 2 then .ok "Ok - Replica Secondary|replica_health=1;;0;;"
       else .error (.replicaUnhealthy "Critical - Replica NOK!|replica_health=1;;0;;")) ∧
    ((∃ e, report_instance_status (.ok s) = .error e) ↔ ¬(s = 1 ∨ s = 2)) := by
  constructor
  · simp only [report_instance_status, PRIMARY_INSTANCE, SECONDARY_INSTANCE]
    split_ifs <;> decide
  · by_cases h1 : s = 1
    · simp [report_instance_status, PRIMARY_INSTANCE, h1]
    · by_cases h2 : s = 2
      · simp [report_instance_status, PRIMARY_INSTANCE, SECONDARY_INSTANCE, h1, h2]
      · simp [report_instance_status, PRIMARY_INSTANCE, SECONDARY_INSTANCE, h1, h2]

/-- C5: end to end, a replica run whose service reports state 1 prints
exactly `Ok - Replica Primary|replica_health=1;;0;;` and exits 0, and a run
whose reported state is outside {1, 2} prints a line starting with
`Critical - Replica NOK!` and exits 2. -/
theorem C5_replica_end_to_end :
    mongoMain (.ok 1) = ("Ok - Replica Primary|replica_health=1;;0;;", 0) ∧
    ∀ s : ℤ, ¬(s = 1 ∨ s = 2) →
      strStartsWith "Critical - Replica NOK!" (mongoMain (.ok s)).1 = true ∧
      (mongoMain (.ok s)).2 = 2 := by
  refine ⟨by decide, ?_⟩
  intro s hs
  push_neg at hs
  have hrep : report_instance_status (.ok s) =
      .error (.replicaUnhealthy ("Critical - Replica NOK!" ++ "|replica_health=1;;0;;")) := by
    simp [report_instance_status, PRIMARY_INSTANCE, SECONDARY_INSTANCE, hs.1, hs.2]
  have hmain : mongoMain (.ok s) = ("Critical - Replica NOK!" ++ "|replica_health=1;;0;;", 2) := by
    simp [mongoMain, hrep]
  rw [hmain]
  exact ⟨by decide, rfl⟩

/-- C5 witness: the unhealthy branch evaluated at the concrete state 0. -/
theorem C5_replica_end_to_end_witness :
    strStartsWith "Critical - Replica NOK!" (mongoMain (.ok 0)).1 = true ∧
    (mongoMain (.ok 0)).2 = 2 :=
  C5_replica_end_to_end.2 0 (by decide)

/-- C3: threshold resolution returns the default when the caller-supplied
override is absent or numerically zero (falsy) and the override unchanged
otherwise; concretely `resolve(None, 20.0) = 20.0`, `resolve(5.0, 20.0) =
5.0`, `resolve(0, 20.0) = 20.0`; and the two defaults it guards are 0.95
(memory fraction) and 20.0 ms (latency). -/
theorem C3_threshold_resolution :
    (∀ d : PyQ, resolve none d = d) ∧
    (∀ (d x : PyQ), resolve (some x) d = if toQ x = 0 then d else x) ∧
    resolve none (mkPyQ 20 1) = mkPyQ 20 1 ∧
    resolve (some (mkPyQ 5 1)) (mkPyQ 20 1) = mkPyQ 5 1 ∧
    resolve (some (mkPyQ 0 1)) (mkPyQ 20 1) = mkPyQ 20 1 ∧
    toQ ARGS.MAX_PERCENTUAL_MEMORY_USAGE = 95 / 100 ∧
    toQ ARGS.MAX_LATENCY_MS = 20 := by
  refine ⟨fun d => rfl, ?_, by decide, by decide, by decide, ?_, ?_⟩
  · intro d x
    rcases eq_or_ne x.num 0 with h | h
    · rw [resolve, if_pos h, if_pos ((toQ_eq_zero_iff x).mpr h)]
    · rw [resolve, if_neg h, if_neg (fun hq => h ((toQ_eq_zero_iff x).mp hq))]
  · norm_num [toQ, ARGS.MAX_PERCENTUAL_MEMORY_USAGE, mkPyQ]
  · norm_num [toQ, ARGS.MAX_LATENCY_MS, mkPyQ]

/-- C2: whenever `check_memory_usage` completes (the human-readable limit
parsed), the returned health flag is true exactly when
`used_memory <= fraction * maxmemory`; in particular when `maxmemory` is 0
the allowed limit is 0 and the check passes only for `used_memory = 0`. -/
theorem C2_memory_threshold (ci : ClientInformation) (f : PyQ) (b : Bool) (s : String)
    (h : check_memory_usage ci f = .ok (b, s)) :
    (b = true ↔ (ci.used_memory : ℚ) ≤ toQ f * (ci.maxmemory : ℚ)) ∧
    (ci.maxmemory = 0 → (b = true ↔ ci.used_memory = 0)) := by
  have hblt : (get_memory_threshold_by_percentage f ci).blt
      (PyQ.ofNat ci.used_memory) = true ↔
      toQ f * (ci.maxmemory : ℚ) < (ci.used_memory : ℚ) := by
    rw [PyQ.blt_iff, get_memory_threshold_by_percentage, toQ_mul, toQ_ofNat, toQ_ofNat]
  have hb : b = !((get_memory_threshold_by_percentage f ci).blt
      (PyQ.ofNat ci.used_memory)) := by
    cases hh : get_human_memory_threshold_by_percentage f ci with
    | error e =>
      simp only [check_memory_usage, hh] at h
      cases h
    | ok hu =>
      simp only [check_memory_usage, hh, Except.ok.injEq, Prod.mk.injEq] at h
      rw [← h.1]
      cases hx : (get_memory_threshold_by_percentage f ci).blt (PyQ.ofNat ci.used_memory) <;>
        rfl
  have key : b = true ↔ (ci.used_memory : ℚ) ≤ toQ f * (ci.maxmemory : ℚ) := by
    rw [hb]
    cases hx : (get_memory_threshold_by_percentage f ci).blt (PyQ.ofNat ci.used_memory) with
    | false =>
      have hle : (ci.used_memory : ℚ) ≤ toQ f * (ci.maxmemory : ℚ) :=
        le_of_not_lt (fun hlt => by rw [hblt.mpr hlt] at hx; cases hx)
      exact iff_of_true (by decide) hle
    | true =>
      exact iff_of_false (by decide) (not_le_of_lt (hblt.mp hx))
  refine ⟨key, fun h0 => ?_⟩
  rw [key, h0, Nat.cast_zero, mul_zero, Nat.cast_nonpos]

/-- C2 witness: the theorem applied to a concrete snapshot with
`maxmemory = 0` and `used_memory = 0`, where both parts apply. -/
theorem C2_memory_threshold_witness :
    ((true = true) ↔ ((0 : ℕ) : ℚ) ≤ toQ ARGS.MAX_PERCENTUAL_MEMORY_USAGE * ((0 : ℕ) : ℚ)) ∧
    ((0 : ℕ) = 0 → ((true = true) ↔ (0 : ℕ) = 0)) :=
  C2_memory_threshold ⟨0, 0, "0B", "0B"⟩ ARGS.MAX_PERCENTUAL_MEMORY_USAGE true "0.00BB"
    (by decide)

/-- C4: for a human-readable max-memory string made of a numeric prefix and
one trailing unit character, the human-readable limit is the prefix parsed
as a float, multiplied by the fraction (the product is exact: its rational
value is the product of the values), formatted to two decimals, with the
same unit character reattached and a literal `B` appended; the unit
character sitting before the final `B` is always that of the input string;
and concretely `"3.59G"` with fraction 0.95 yields `"3.41GB"`. -/
theorem C4_human_threshold (p : String) (c : Char) (um mm : ℕ) (u : String) (f q : PyQ)
    (hp : parsePyFloat p = some q) :
    get_human_memory_threshold_by_percentage f ⟨um, mm, u, p ++ String.singleton c⟩ =
      .ok (format2f (q.mul f) ++ String.singleton c ++ "B") ∧
    toQ (q.mul f) = toQ q * toQ f ∧
    pyLastChar (pyDropLast (format2f (q.mul f) ++ String.singleton c ++ "B")) =
      String.singleton c ∧
    get_human_memory_threshold_by_percentage (mkPyQ 95 100) ⟨um, mm, u, "3.59G"⟩ =
      .ok "3.41GB" := by
  refine ⟨?_, toQ_mul q f, ?_, ?_⟩
  · simp only [get_human_memory_threshold_by_percentage, pyDropLast_append_singleton, hp,
      pyLastChar_append_singleton]
  · have hB : ("B" : String) = String.singleton 'B' := rfl
    rw [hB, pyDropLast_append_singleton, pyLastChar_append_singleton]
  · rfl

/-- C4 witness: the general formatting law applied to the concrete input
`"3.59" ++ "G"` with fraction 95/100. -/
theorem C4_human_threshold_witness :
    get_human_memory_threshold_by_percentage (mkPyQ 95 100)
        ⟨0, 0, "", "3.59" ++ String.singleton 'G'⟩ =
      .ok (format2f ((mkPyQ 359 100).mul (mkPyQ 95 100)) ++ String.singleton 'G' ++ "B") :=
  (C4_human_threshold "3.59" 'G' 0 0 "" (mkPyQ 95 100) (mkPyQ 359 100) (by decide)).1

/-- C7: whenever the latency tool's output has a third space-delimited token
that parses as a float, `check_latency` returns that value as the measured
average latency and is healthy exactly when it is at most the threshold;
and end to end, with healthy memory and measured latency 25.0 against the
default 20.0, the `high` marker appears only before `average latency` and
the run exits 2. -/
theorem C7_latency_check (ml : PyQ) (raw tok : String) (q : PyQ)
    (h2 : (run_keydb_latency_check raw)[2]? = some tok)
    (hq : parsePyFloat tok = some q) :
    (∃ b, check_latency ml raw = .ok (b, q) ∧ (b = true ↔ toQ q ≤ toQ ml)) ∧
    redisMain none none (.ok ⟨6312960, 3854917632, "6.02M", "3.59G"⟩) "a b 25.0" =
      .exited " memory usage: 6.02MB used of 3.59GB / high average latency: 25.0 ms|used_memory=6.02MB;;3.41GB;; average_latency=25.0;;20.0;;" 2 := by
  constructor
  · cases hx : ml.blt q with
    | false =>
      refine ⟨true, ?_, ?_⟩
      · simp [check_latency, h2, hq, hx]
      · have hle : toQ q ≤ toQ ml :=
          le_of_not_lt (fun hlt => by rw [(PyQ.blt_iff ml q).mpr hlt] at hx; cases hx)
        exact iff_of_true (by decide) hle
    | true =>
      refine ⟨false, ?_, ?_⟩
      · simp [check_latency, h2, hq, hx]
      · exact iff_of_false (by decide) (not_le_of_lt ((PyQ.blt_iff ml q).mp hx))
  · decide

/-- C7 witness: the threshold law applied to the concrete tool output
`"a b 0.07"` against the default threshold 20. -/
theorem C7_latency_check_witness :
    ∃ b, check_latency (mkPyQ 20 1) "a b 0.07" = .ok (b, mkPyQ 7 100) ∧
      (b = true ↔ toQ (mkPyQ 7 100) ≤ toQ (mkPyQ 20 1)) :=
  (C7_latency_check (mkPyQ 20 1) "a b 0.07" "0.07" (mkPyQ 7 100) (by decide) (by decide)).1

/-- C6: with telemetry obtained, the formatted message is exactly the
summary-plus-performance-data template, each marker being the literal
`high` when that sub-check is unhealthy and the empty string when it is
healthy (leaving the double-space artifact); concretely, used=6.02M,
max=3.59G, latency 0.07 under default thresholds formats (and, end to end,
prints with exit 0) the expected line. -/
theorem C6_cache_message_format :
    (∀ (bm bl : Bool) (hstr : String) (ml lat : PyQ) (ci : ClientInformation),
      format_message bm hstr bl ml ci lat =
        (if bm then "" else "high") ++ " memory usage: " ++
          (ci.used_memory_human ++ "B") ++ " used of " ++
          (ci.maxmemory_human ++ "B") ++ " / " ++
          (if bl then "" else "high") ++ " average latency: " ++ pyFloatRepr lat ++
          " ms" ++ "|used_memory=" ++ (ci.used_memory_human ++ "B") ++ ";;" ++ hstr ++
          ";; average_latency=" ++ pyFloatRepr lat ++ ";;" ++ pyFloatRepr ml ++ ";;") ∧
    format_message true "3.41GB" true (mkPyQ 20 1)
        ⟨6312960, 3854917632, "6.02M", "3.59G"⟩ (mkPyQ 7 100) =
      " memory usage: 6.02MB used of 3.59GB /  average latency: 0.07 ms|used_memory=6.02MB;;3.41GB;; average_latency=0.07;;20.0;;" ∧
    redisMain none none (.ok ⟨6312960, 3854917632, "6.02M", "3.59G"⟩) "a b 0.07" =
      .exited " memory usage: 6.02MB used of 3.59GB /  average latency: 0.07 ms|used_memory=6.02MB;;3.41GB;; average_latency=0.07;;20.0;;" 0 := by
  refine ⟨?_, by decide, by decide⟩
  intro bm bl hstr ml lat ci
  cases bm <;> cases bl <;> simp [format_message, strAppend_assoc]

/-- Evaluation law for `report_stats` once both checks complete: the message
is always the full formatted line, returned on a healthy verdict and raised
inside `redis.RedisError` on an unhealthy one. -/
theorem report_stats_eval (ml mmu : Option PyQ) (ci : ClientInformation) (raw : String)
    (bm : Bool) (hstr : String) (bl : Bool) (lat : PyQ)
    (hm : check_memory_usage ci (resolve mmu ARGS.MAX_PERCENTUAL_MEMORY_USAGE) =
      .ok (bm, hstr))
    (hl : check_latency (resolve ml ARGS.MAX_LATENCY_MS) raw = .ok (bl, lat)) :
    report_stats ml mmu (.ok ci) raw =
      (if bm && bl
       then .ok (format_message bm hstr bl (resolve ml ARGS.MAX_LATENCY_MS) ci lat)
       else .error (.redisError
         (format_message bm hstr bl (resolve ml ARGS.MAX_LATENCY_MS) ci lat))) := by
  simp only [report_stats, hm, hl]
  cases bm <;> cases bl <;> simp

/-- C8: every run of either probe prints the success message and exits 0
exactly when every evaluated check is healthy, and every collaborator error
(connection timeout, operation/auth failure, `redis.RedisError`) as well as
every unhealthy verdict is mapped uniformly to printing the error's message
text and exiting with the CRITICAL code 2, with no retry. -/
theorem C8_uniform_error_mapping :
    (∀ m, mongoMain (.error (.timeout m)) = (m, 2)) ∧
    (∀ m, mongoMain (.error (.opFailure m)) = (m, 2)) ∧
    (∀ s : ℤ, (mongoMain (.ok s)).2 = 0 ↔ (s = 1 ∨ s = 2)) ∧
    (∀ (m raw : String) (ml mmu : Option PyQ),
      redisMain ml mmu (.error m) raw = .exited m 2) ∧
    (∀ (ml mmu : Option PyQ) (ci : ClientInformation) (raw : String) (bm : Bool)
        (hstr : String) (bl : Bool) (lat : PyQ),
      check_memory_usage ci (resolve mmu ARGS.MAX_PERCENTUAL_MEMORY_USAGE) =
        .ok (bm, hstr) →
      check_latency (resolve ml ARGS.MAX_LATENCY_MS) raw = .ok (bl, lat) →
      ((∃ out, redisMain ml mmu (.ok ci) raw = .exited out 0) ↔
        (bm = true ∧ bl = true))) := by
  refine ⟨fun m => rfl, fun m => rfl, ?_, fun m raw ml mmu => rfl, ?_⟩
  · intro s
    by_cases h1 : s = 1
    · simp [mongoMain, report_instance_status, PRIMARY_INSTANCE, h1]
    · by_cases h2 : s = 2
      · simp [mongoMain, report_instance_status, PRIMARY_INSTANCE, SECONDARY_INSTANCE, h1, h2]
      · simp [mongoMain, report_instance_status, PRIMARY_INSTANCE, SECONDARY_INSTANCE, h1, h2]
  · intro ml mmu ci raw bm hstr bl lat hm hl
    have h := report_stats_eval ml mmu ci raw bm hstr bl lat hm hl
    cases bm <;> cases bl <;> simp_all [redisMain]

/-- C8 witness: the healthy cache run from scenario C exits 0. -/
theorem C8_uniform_error_mapping_witness :
    (∃ out, redisMain none none (.ok ⟨6312960, 3854917632, "6.02M", "3.59G"⟩) "a b 0.07" =
      .exited out 0) ↔ (true = true ∧ true = true) :=
  C8_uniform_error_mapping.2.2.2.2 none none ⟨6312960, 3854917632, "6.02M", "3.59G"⟩
    "a b 0.07" true "3.41GB" true (mkPyQ 7 100) (by decide) (by decide)

/-- C9: once telemetry is obtained, the line printed by the cache probe's
`main` is the full formatted message for the measured values regardless of
verdict — on an unhealthy verdict the raised `redis.RedisError` carries
exactly the `format_message` output, `main` prints it and exits 2, so
healthy and unhealthy runs differ on stdout only in the `high` markers. -/
theorem C9_message_integrity (ml mmu : Option PyQ) (ci : ClientInformation) (raw : String)
    (bm : Bool) (hstr : String) (bl : Bool) (lat : PyQ)
    (hm : check_memory_usage ci (resolve mmu ARGS.MAX_PERCENTUAL_MEMORY_USAGE) =
      .ok (bm, hstr))
    (hl : check_latency (resolve ml ARGS.MAX_LATENCY_MS) raw = .ok (bl, lat)) :
    redisMain ml mmu (.ok ci) raw =
      .exited (format_message bm hstr bl (resolve ml ARGS.MAX_LATENCY_MS) ci lat)
        (if bm && bl then 0 else 2) := by
  have h := report_stats_eval ml mmu ci raw bm hstr bl lat hm hl
  cases bm <;> cases bl <;> simp_all [redisMain]

/-- C9 witness: the unhealthy-latency run prints the full formatted message
and exits 2. -/
theorem C9_message_integrity_witness :
    redisMain none none (.ok ⟨6312960, 3854917632, "6.02M", "3.59G"⟩) "a b 25.0" =
      .exited (format_message true "3.41GB" false (resolve none ARGS.MAX_LATENCY_MS)
        ⟨6312960, 3854917632, "6.02M", "3.59G"⟩ (mkPyQ 250 10))
        (if true && false then 0 else 2) :=
  C9_message_integrity none none ⟨6312960, 3854917632, "6.02M", "3.59G"⟩ "a b 25.0"
    true "3.41GB" false (mkPyQ 250 10) (by decide) (by decide)

/-- C10: the cache probe's `main` catches only `redis.RedisError`, so when
the prefix of `maxmemory_human` does not parse as a float the `ValueError`
escapes and the process terminates without a plugin message or exit code 2;
concretely the bare string `"0"` triggers the uncaught `ValueError`, and a
latency-tool output with fewer than three tokens triggers an uncaught
`IndexError`. -/
theorem C10_uncaught_exceptions (ml mmu : Option PyQ) (ci : ClientInformation)
    (raw : String)
    (hbad : parsePyFloat (pyDropLast ci.maxmemory_human) = none) :
    redisMain ml mmu (.ok ci) raw = .uncaught .valueError ∧
    redisMain none none (.ok ⟨0, 0, "0B", "0"⟩) "a b 0.07" = .uncaught .valueError ∧
    redisMain none none (.ok ⟨0, 0, "0B", "0B"⟩) "" = .uncaught .indexError := by
  refine ⟨?_, by decide, by decide⟩
  have hcm : check_memory_usage ci (resolve mmu ARGS.MAX_PERCENTUAL_MEMORY_USAGE) =
      .error .valueError := by
    simp only [check_memory_usage, get_human_memory_threshold_by_percentage, hbad]
  simp [redisMain, report_stats, hcm]

/-- C10 witness: the general uncaught-ValueError law at a concrete
snapshot whose `maxmemory_human` is the bare numeral `"0"`. -/
theorem C10_uncaught_exceptions_witness :
    redisMain none none (.ok ⟨1, 2, "1B", "0"⟩) "x" = .uncaught PyErr.valueError :=
  (C10_uncaught_exceptions none none ⟨1, 2, "1B", "0"⟩ "x" (by decide)).1
